import Mathlib

/-!
Shallow embedding of the Photobooth backend (src/backend/app/main.py):
data model (User, Photo), the token codec (create_access_token / decode_token
over python-jose JWTs), the credential hasher (bcrypt via passlib), and the
route handlers register, login, login_json, get_current_user, verify_email,
request_password_reset, confirm_password_reset, list_photos, delete_photo.

Modelling conventions:
* The database session is replaced by an explicit DB value; mutating routes
  return the new DB next to their result, and return the input DB unchanged
  when they raise an HTTPException before any commit.
* Wall-clock time (datetime.utcnow) is an explicit integer parameter now,
  in seconds.
* A JWT is modelled as its claim set plus the key that signed it; the
  signature verifies exactly when that key equals SECRET_KEY.  jose's
  jwt.decode validates the signature and, by default, the exp claim
  (ExpiredSignatureError is a JWTError), and does not look at other claims;
  decode_token therefore yields the claims iff the key matches and the
  token is unexpired.
* bcrypt hashing is modelled abstractly: a digest remembers the plaintext it
  was derived from, and verify_password succeeds exactly on that plaintext.
  The salt is irrelevant to every property proved here.
-/

namespace Photobooth

/-- Abstract model of a passlib/bcrypt digest: verification succeeds exactly
on the plaintext the digest was produced from. -/
structure BcryptHash where
  source : String
deriving DecidableEq, Repr

/-- main.py get_password_hash: pwd_context.hash(password). -/
def get_password_hash (password : String) : BcryptHash :=
  ⟨password⟩

/-- main.py verify_password: pwd_context.verify(plain, hashed). -/
def verify_password (plain : String) (hashed : BcryptHash) : Bool :=
  plain == hashed.source

/-- main.py SECRET_KEY. -/
def SECRET_KEY : String := "your-super-secret-key-change-this-in-production-123"

/-- main.py ACCESS_TOKEN_EXPIRE_MINUTES. -/
def ACCESS_TOKEN_EXPIRE_MINUTES : Int := 60

/-- The claim set embedded in a JWT issued by this app: the sub claim, the
custom type claim (the purpose tag), and the exp instant in seconds. -/
structure Claims where
  sub : Option String
  typ : Option String
  exp : Int
deriving DecidableEq, Repr

/-- A JWT as this app sees it: its claims plus the key that signed it.  The
signature verifies iff key = SECRET_KEY; a tampered or foreign token is one
whose key field differs. -/
structure Token where
  claims : Claims
  key : String
deriving DecidableEq, Repr

/-- main.py create_access_token: copies data (sub and optional type claim),
sets exp = now + (expires_delta or 60 minutes) and signs with SECRET_KEY. -/
def create_access_token (now : Int) (sub typ : Option String)
    (expires_delta : Option Int) : Token :=
  { claims :=
      { sub := sub
        typ := typ
        exp := now + expires_delta.getD (ACCESS_TOKEN_EXPIRE_MINUTES * 60) }
    key := SECRET_KEY }

/-- main.py decode_token: jwt.decode(token, SECRET_KEY, algorithms=[ALGORITHM])
inside try/except JWTError.  jose verifies the signature and the exp claim
(expired tokens raise ExpiredSignatureError, a JWTError), so the payload is
returned iff the signature is intact and exp has not passed. -/
def decode_token (now : Int) (token : Token) : Option Claims :=
  if token.key = SECRET_KEY ∧ now ≤ token.claims.exp then
    some token.claims
  else
    none

/-- main.py User row (id assigned by the store on insert). -/
structure User where
  id : Nat
  email : String
  hashed_password : BcryptHash
  is_active : Bool
  is_verified : Bool
deriving DecidableEq, Repr

/-- main.py Photo row. -/
structure Photo where
  id : Nat
  user_id : Nat
  filename : String
  caption : Option String
deriving DecidableEq, Repr

/-- The relational store: the user table with its autoincrement counter, and
the photo table. -/
structure DB where
  users : List User
  next_user_id : Nat
  photos : List Photo
deriving DecidableEq, Repr

/-- main.py HTTPException payload. -/
structure HTTPError where
  status_code : Nat
  detail : String
deriving DecidableEq, Repr

/-- main.py get_user_by_email: select(User).where(User.email == email).first();
email is a unique indexed column, modelled as first list hit. -/
def get_user_by_email (db : DB) (email : String) : Option User :=
  db.users.find? (fun u => u.email == email)

/-- Row update by primary key, as session.add/commit of a fetched ORM object. -/
def update_user (db : DB) (uid : Nat) (f : User → User) : DB :=
  { db with users := db.users.map (fun v => if v.id = uid then f v else v) }

/-- main.py UserRegisterResponse. -/
structure UserRegisterResponse where
  id : Nat
  email : String
  is_verified : Bool
  verify_token : Option Token
deriving DecidableEq, Repr

/-- main.py TokenOut. -/
structure TokenOut where
  access_token : Token
  token_type : String
deriving DecidableEq, Repr

/-- main.py POST /register: reject a duplicate email with 400, otherwise
persist a fresh unverified user and issue a 24h email_verification token. -/
def register (now : Int) (db : DB) (email password : String) :
    Except HTTPError UserRegisterResponse × DB :=
  match get_user_by_email db email with
  | some _ => (.error ⟨400, "Email already registered"⟩, db)
  | none =>
    let user : User :=
      { id := db.next_user_id
        email := email
        hashed_password := get_password_hash password
        is_active := true
        is_verified := false }
    let db' : DB :=
      { db with users := db.users ++ [user], next_user_id := db.next_user_id + 1 }
    let verify_tok :=
      create_access_token now (some user.email) (some "email_verification")
        (some (24 * 3600))
    (.ok { id := user.id
           email := user.email
           is_verified := user.is_verified
           verify_token := some verify_tok }, db')

/-- main.py POST /login (form credentials): a missing user and a failed
password check raise the same 400; an inactive account raises a distinct 400;
otherwise a default-TTL access token with sub = email and no type claim. -/
def login (now : Int) (db : DB) (username password : String) :
    Except HTTPError TokenOut :=
  match get_user_by_email db username with
  | none => .error ⟨400, "Incorrect email or password"⟩
  | some user =>
    if ¬ verify_password password user.hashed_password then
      .error ⟨400, "Incorrect email or password"⟩
    else if ¬ user.is_active then
      .error ⟨400, "Account is deactivated"⟩
    else
      .ok { access_token := create_access_token now (some user.email) none none
            token_type := "bearer" }

/-- main.py POST /login-json: same body as login over JSON credentials. -/
def login_json (now : Int) (db : DB) (email password : String) :
    Except HTTPError TokenOut :=
  match get_user_by_email db email with
  | none => .error ⟨400, "Incorrect email or password"⟩
  | some user =>
    if ¬ verify_password password user.hashed_password then
      .error ⟨400, "Incorrect email or password"⟩
    else if ¬ user.is_active then
      .error ⟨400, "Account is deactivated"⟩
    else
      .ok { access_token := create_access_token now (some user.email) none none
            token_type := "bearer" }

/-- main.py credentials_exception: 401 for every resolution failure. -/
def credentials_exception : HTTPError :=
  ⟨401, "Could not validate credentials"⟩

/-- main.py get_current_user: decode the bearer token, read sub, look the
user up by email; each failure raises credentials_exception.  Neither the
type claim nor is_active is inspected. -/
def get_current_user (now : Int) (db : DB) (token : Token) :
    Except HTTPError User :=
  match decode_token now token with
  | none => .error credentials_exception
  | some payload =>
    match payload.sub with
    | none => .error credentials_exception
    | some email =>
      match get_user_by_email db email with
      | none => .error credentials_exception
      | some user => .ok user

/-- main.py POST /verify-email: decode, demand type == email_verification,
demand a truthy sub (Python: if not email), look up the user, set
is_verified = True and commit. -/
def verify_email (now : Int) (db : DB) (token : Token) :
    Except HTTPError String × DB :=
  match decode_token now token with
  | none => (.error ⟨400, "Invalid or expired verification token"⟩, db)
  | some payload =>
    if payload.typ ≠ some "email_verification" then
      (.error ⟨400, "Invalid or expired verification token"⟩, db)
    else
      match payload.sub with
      | none => (.error ⟨400, "Invalid token"⟩, db)
      | some email =>
        if email = "" then (.error ⟨400, "Invalid token"⟩, db)
        else
          match get_user_by_email db email with
          | none => (.error ⟨404, "User not found"⟩, db)
          | some user =>
            (.ok "Email verified successfully",
             update_user db user.id (fun u => { u with is_verified := true }))

/-- main.py POST /reset-password/request response: a message, plus the reset
token itself when one was issued (no mailer exists; the token rides back in
the HTTP response). -/
structure ResetRequestResponse where
  message : String
  reset_token : Option Token
deriving DecidableEq, Repr

/-- main.py POST /reset-password/request: unknown email gets a bare message;
a known email gets a different message together with a 1h password_reset
token in the response body. -/
def request_password_reset (now : Int) (db : DB) (email : String) :
    ResetRequestResponse :=
  match get_user_by_email db email with
  | none =>
    { message := "If the email exists, a reset link will be sent"
      reset_token := none }
  | some user =>
    { message := "Password reset token generated"
      reset_token :=
        some (create_access_token now (some user.email) (some "password_reset")
          (some 3600)) }

/-- main.py POST /reset-password/confirm: decode, demand type ==
password_reset, demand a truthy sub, look up the user, overwrite the
password hash and commit. -/
def confirm_password_reset (now : Int) (db : DB) (token : Token)
    (new_password : String) : Except HTTPError String × DB :=
  match decode_token now token with
  | none => (.error ⟨400, "Invalid or expired reset token"⟩, db)
  | some payload =>
    if payload.typ ≠ some "password_reset" then
      (.error ⟨400, "Invalid or expired reset token"⟩, db)
    else
      match payload.sub with
      | none => (.error ⟨400, "Invalid token"⟩, db)
      | some email =>
        if email = "" then (.error ⟨400, "Invalid token"⟩, db)
        else
          match get_user_by_email db email with
          | none => (.error ⟨404, "User not found"⟩, db)
          | some user =>
            (.ok "Password reset successfully",
             update_user db user.id
               (fun u => { u with hashed_password := get_password_hash new_password }))

/-- The rows fetched by main.py GET /photos:
select(Photo).where(Photo.user_id == current_user.id).offset(skip).limit(limit). -/
def list_photos_rows (db : DB) (skip limit : Nat) (current_user : User) :
    List Photo :=
  ((db.photos.filter (fun p => p.user_id == current_user.id)).drop skip).take limit

/-- One element of the GET /photos response body. -/
structure PhotoOut where
  id : Nat
  url : String
  caption : Option String
deriving DecidableEq, Repr

/-- main.py GET /photos: the fetched rows projected to the response shape. -/
def list_photos (db : DB) (skip limit : Nat) (current_user : User) :
    List PhotoOut :=
  (list_photos_rows db skip limit current_user).map
    (fun p => { id := p.id, url := "/uploads/" ++ p.filename, caption := p.caption })

/-- main.py DELETE /photos/\x7bphoto_id\x7d: fetch the row matching both the
photo id and the caller's user id; 404 when none, else delete that row. -/
def delete_photo (db : DB) (photo_id : Nat) (current_user : User) :
    Except HTTPError String × DB :=
  match db.photos.find? (fun p => p.id == photo_id && p.user_id == current_user.id) with
  | none => (.error ⟨404, "Photo not found"⟩, db)
  | some photo =>
    (.ok "Photo deleted successfully",
     { db with photos := db.photos.filter (fun p => p.id != photo.id) })

/-! Concrete store states and tokens used to instantiate the theorems. -/

/-- The empty store, autoincrement counter at 1. -/
def db0 : DB := { users := [], next_user_id := 1, photos := [] }

/-- One registered, active, unverified user. -/
def userA : User :=
  { id := 1, email := "a@x.com", hashed_password := get_password_hash "pw123"
    is_active := true, is_verified := false }

/-- Store holding exactly userA. -/
def dbA : DB := { users := [userA], next_user_id := 2, photos := [] }

/-- A deactivated user. -/
def userInactive : User :=
  { id := 7, email := "i@x.com", hashed_password := get_password_hash "pw"
    is_active := false, is_verified := false }

/-- Store holding exactly the deactivated user. -/
def dbInactive : DB := { users := [userInactive], next_user_id := 8, photos := [] }

/-- A second user, owner of photoB. -/
def userB : User :=
  { id := 2, email := "b@y.com", hashed_password := get_password_hash "pw2"
    is_active := true, is_verified := true }

/-- A photo owned by userA. -/
def photoA : Photo := { id := 1, user_id := 1, filename := "aaa.jpg", caption := none }

/-- A photo owned by userB. -/
def photoB : Photo := { id := 2, user_id := 2, filename := "bbb.jpg", caption := none }

/-- Store with both users and one photo each. -/
def dbPhotos : DB :=
  { users := [userA, userB], next_user_id := 3, photos := [photoA, photoB] }

/-- A correctly signed access token whose expiry instant 100 is already past
at now = 200. -/
def tok_expired : Token :=
  { claims := { sub := some "a@x.com", typ := none, exp := 100 }, key := SECRET_KEY }

/-- A correctly signed, long-lived email_verification token for userA. -/
def tokVerifA : Token :=
  { claims := { sub := some "a@x.com", typ := some "email_verification", exp := 86400 }
    key := SECRET_KEY }

/-- A correctly signed email_verification token for the deactivated user. -/
def tokVerifInactive : Token :=
  { claims := { sub := some "i@x.com", typ := some "email_verification", exp := 86400 }
    key := SECRET_KEY }

/-- A token signed with a different key: its signature does not verify. -/
def tokBadKey : Token :=
  { claims := { sub := some "a@x.com", typ := none, exp := 1000000 }, key := "other-key" }

end Photobooth

namespace Photobooth

/-! Helper lemmas shared by the claim theorems. -/

/-- Looking a user up after a by-id row update that preserves emails is the
lookup in the old store with the update applied to the hit. -/
theorem get_user_by_email_update_user (db : DB) (uid : Nat) (f : User → User)
    (hf : ∀ v, (f v).email = v.email) (email : String) :
    get_user_by_email (update_user db uid f) email =
      (get_user_by_email db email).map (fun v => if v.id = uid then f v else v) := by
  unfold get_user_by_email update_user
  have hp : ((fun u : User => u.email == email) ∘ (fun v => if v.id = uid then f v else v))
      = (fun u : User => u.email == email) := by
    funext v
    by_cases h : v.id = uid <;> simp [h, hf]
  rw [List.find?_map, hp]

/-- C8: when an Identity with the given email already exists, register fails
with the AlreadyExists outcome (400, "Email already registered") and the
Account Store is returned unchanged: no row added, no row modified. -/
theorem C8_register_existing_email_fails (now : Int) (db : DB) (email password : String)
    (h : get_user_by_email db email ≠ none) :
    register now db email password = (.error ⟨400, "Email already registered"⟩, db) := by
  unfold register
  cases hu : get_user_by_email db email with
  | none => exact absurd hu h
  | some u => rfl

/-- Witness for C8 at a concrete store that already holds a user with the
registered email. -/
theorem C8_witness :
    register 0 dbA "a@x.com" "otherpw" = (.error ⟨400, "Email already registered"⟩, dbA) :=
  C8_register_existing_email_fails 0 dbA "a@x.com" "otherpw" (by decide)

/-- C4: login with a registered email whose password hash does not verify and
login with an unregistered email fail with the one same InvalidCredentials
outcome (400, "Incorrect email or password"); login_json behaves identically. -/
theorem C4_login_failures_indistinguishable (now now2 : Int) (db : DB)
    (e1 p1 e2 p2 : String) (u : User)
    (h1 : get_user_by_email db e1 = some u)
    (h2 : verify_password p1 u.hashed_password = false)
    (h3 : get_user_by_email db e2 = none) :
    login now db e1 p1 = .error ⟨400, "Incorrect email or password"⟩ ∧
    login now2 db e2 p2 = .error ⟨400, "Incorrect email or password"⟩ ∧
    login_json now db e1 p1 = .error ⟨400, "Incorrect email or password"⟩ ∧
    login_json now2 db e2 p2 = .error ⟨400, "Incorrect email or password"⟩ := by
  refine ⟨?_, ?_, ?_, ?_⟩ <;> simp [login, login_json, h1, h2, h3]

/-- Witness for C4: wrong password for the registered a@x.com versus the
absent b@y.com. -/
theorem C4_witness :
    login 0 dbA "a@x.com" "wrongpw" = .error ⟨400, "Incorrect email or password"⟩ ∧
    login 0 dbA "b@y.com" "whatever" = .error ⟨400, "Incorrect email or password"⟩ ∧
    login_json 0 dbA "a@x.com" "wrongpw" = .error ⟨400, "Incorrect email or password"⟩ ∧
    login_json 0 dbA "b@y.com" "whatever" = .error ⟨400, "Incorrect email or password"⟩ :=
  C4_login_failures_indistinguishable 0 0 dbA "a@x.com" "wrongpw" "b@y.com" "whatever"
    userA (by decide) (by decide) (by decide)

/-- C3: a token whose purpose tag is email_verification always fails
confirm_password_reset -- even with a valid signature and future expiry --
and the store, hence every password hash in it, is unchanged. -/
theorem C3_verification_token_fails_reset (now : Int) (db : DB) (tok : Token)
    (new_password : String)
    (h : tok.claims.typ = some "email_verification") :
    confirm_password_reset now db tok new_password =
      (.error ⟨400, "Invalid or expired reset token"⟩, db) := by
  unfold confirm_password_reset
  cases hd : decode_token now tok with
  | none => rfl
  | some payload =>
    have hp : payload = tok.claims := by
      unfold decode_token at hd
      split at hd
      · exact (Option.some.injEq _ _ ▸ hd).symm
      · exact absurd hd (by simp)
    rw [hp]
    simp [h]

/-- Witness for C3: a signed, unexpired verification token for a registered
user still cannot reset a password. -/
theorem C3_witness :
    confirm_password_reset 0 dbA tokVerifA "newpw" =
      (.error ⟨400, "Invalid or expired reset token"⟩, dbA) :=
  C3_verification_token_fails_reset 0 dbA tokVerifA "newpw" (by decide)

/-- C6: a token whose expiry instant is in the past fails identity
resolution, email verification, and password-reset confirmation alike,
whatever its signature, and leaves the store untouched. -/
theorem C6_expired_token_fails_everywhere (now : Int) (db : DB) (tok : Token)
    (new_password : String)
    (h : tok.claims.exp < now) :
    get_current_user now db tok = .error credentials_exception ∧
    verify_email now db tok = (.error ⟨400, "Invalid or expired verification token"⟩, db) ∧
    confirm_password_reset now db tok new_password =
      (.error ⟨400, "Invalid or expired reset token"⟩, db) := by
  have hd : decode_token now tok = none := by
    unfold decode_token
    rw [if_neg]
    rintro ⟨-, h2⟩
    omega
  refine ⟨?_, ?_, ?_⟩ <;>
    simp [get_current_user, verify_email, confirm_password_reset, hd]

/-- Witness for C6 at a correctly signed token expired at instant 100,
evaluated at now = 200 (the harder direction of "regardless of signature"). -/
theorem C6_witness :
    get_current_user 200 dbA tok_expired = .error credentials_exception ∧
    verify_email 200 dbA tok_expired =
      (.error ⟨400, "Invalid or expired verification token"⟩, dbA) ∧
    confirm_password_reset 200 dbA tok_expired "npw" =
      (.error ⟨400, "Invalid or expired reset token"⟩, dbA) :=
  C6_expired_token_fails_everywhere 200 dbA tok_expired "npw" (by decide)

/-- C5 counterexample: tok_expired is signed with SECRET_KEY, so its
signature verifies, yet decode_token at now = 200 returns none instead of
the embedded claims -- the decode primitive does enforce expiry. -/
theorem C5_counterexample :
    tok_expired.key = SECRET_KEY ∧ decode_token 200 tok_expired = none := by
  exact ⟨rfl, by decide⟩

/-- C5 amended: decode_token returns the embedded claims (purpose tag
untouched and unchecked) for a correctly signed token exactly while its
expiry has not passed; an expired token, and a token signed with another
key, decode to none.  Expiry IS checked by the decode primitive itself. -/
theorem C5_decode_checks_expiry_not_purpose (now now2 : Int) (s t : Option String)
    (d : Option Int) (tok : Token) :
    (now2 ≤ now + d.getD (ACCESS_TOKEN_EXPIRE_MINUTES * 60) →
      decode_token now2 (create_access_token now s t d) =
        some { sub := s, typ := t, exp := now + d.getD (ACCESS_TOKEN_EXPIRE_MINUTES * 60) }) ∧
    (now + d.getD (ACCESS_TOKEN_EXPIRE_MINUTES * 60) < now2 →
      decode_token now2 (create_access_token now s t d) = none) ∧
    (tok.key ≠ SECRET_KEY → decode_token now2 tok = none) := by
  refine ⟨?_, ?_, ?_⟩
  · intro h
    unfold decode_token create_access_token
    rw [if_pos ⟨rfl, h⟩]
  · intro h
    unfold decode_token create_access_token
    rw [if_neg]
    rintro ⟨-, h2⟩
    simp only at h2
    omega
  · intro h
    unfold decode_token
    rw [if_neg]
    rintro ⟨h1, -⟩
    exact h h1

/-- Witness for the amended C5: a default-TTL access token decodes to its
claims at now = 50, fails to decode at now = 5000, and a foreign-key token
never decodes. -/
theorem C5_witness :
    decode_token 50 (create_access_token 0 (some "a@x.com") none none) =
      some { sub := some "a@x.com", typ := none, exp := 3600 } ∧
    decode_token 5000 (create_access_token 0 (some "a@x.com") none none) = none ∧
    decode_token 0 tokBadKey = none := by
  refine ⟨?_, ?_, ?_⟩
  · have := (C5_decode_checks_expiry_not_purpose 0 50 (some "a@x.com") none none
      tokBadKey).1 (by decide)
    simpa using this
  · exact (C5_decode_checks_expiry_not_purpose 0 5000 (some "a@x.com") none none
      tokBadKey).2.1 (by decide)
  · exact (C5_decode_checks_expiry_not_purpose 0 0 (some "a@x.com") none none
      tokBadKey).2.2 (by decide)

/-- C2 counterexample: with a@x.com registered and b@y.com not, the two
request_password_reset responses are distinguishable -- different messages,
and the registered run carries the reset token in the response body. -/
theorem C2_counterexample :
    request_password_reset 0 dbA "a@x.com" ≠ request_password_reset 0 dbA "b@y.com" ∧
    (request_password_reset 0 dbA "a@x.com").message ≠
      (request_password_reset 0 dbA "b@y.com").message ∧
    (request_password_reset 0 dbA "a@x.com").reset_token ≠ none ∧
    (request_password_reset 0 dbA "b@y.com").reset_token = none := by
  refine ⟨by decide, by decide, by decide, by decide⟩

/-- C2 amended: request_password_reset always returns a success-shaped
response (it cannot raise), and a reset-purpose token is issued exactly when
the Identity exists; but the two runs are NOT indistinguishable: the message
is "If the email exists, a reset link will be sent" when the email is absent
and "Password reset token generated" -- with the token included in the
response -- when it is present. -/
theorem C2_reset_request_reveals_existence (now : Int) (db : DB) (email : String) :
    ((request_password_reset now db email).reset_token = none ↔
      get_user_by_email db email = none) ∧
    (∀ tok, (request_password_reset now db email).reset_token = some tok →
      tok.claims.typ = some "password_reset" ∧ tok.key = SECRET_KEY) ∧
    (get_user_by_email db email = none →
      (request_password_reset now db email).message =
        "If the email exists, a reset link will be sent") ∧
    (∀ u, get_user_by_email db email = some u →
      (request_password_reset now db email).message = "Password reset token generated") := by
  unfold request_password_reset
  cases hu : get_user_by_email db email with
  | none => simp
  | some u =>
    refine ⟨by simp, ?_, by simp, fun v hv => rfl⟩
    intro tok htok
    simp only [Option.some.injEq] at htok
    subst htok
    exact ⟨rfl, rfl⟩

/-- Witness for the amended C2 at the concrete store dbA. -/
theorem C2_witness :
    (request_password_reset 0 dbA "b@y.com").message =
      "If the email exists, a reset link will be sent" ∧
    (request_password_reset 0 dbA "a@x.com").message = "Password reset token generated" := by
  refine ⟨(C2_reset_request_reveals_existence 0 dbA "b@y.com").2.2.1 (by decide),
    (C2_reset_request_reveals_existence 0 dbA "a@x.com").2.2.2 userA (by decide)⟩

/-- C1: from any store without the email, register persists exactly one new
unverified row and issues a verification token; login with the same
credentials then succeeds with a default-TTL access token; and resolving
that token (within its TTL) returns the registered Identity, whose email is
the registered email. -/
theorem C1_register_login_resolve (now1 now2 now3 : Int) (db : DB)
    (email password : String)
    (hfresh : get_user_by_email db email = none)
    (hexp : now3 ≤ now2 + ACCESS_TOKEN_EXPIRE_MINUTES * 60) :
    register now1 db email password =
      (.ok { id := db.next_user_id, email := email, is_verified := false
             verify_token := some (create_access_token now1 (some email)
               (some "email_verification") (some (24 * 3600))) },
       { db with
           users := db.users ++
             [(⟨db.next_user_id, email, get_password_hash password, true, false⟩ : User)]
           next_user_id := db.next_user_id + 1 }) ∧
    login now2 (register now1 db email password).2 email password =
      .ok { access_token := create_access_token now2 (some email) none none
            token_type := "bearer" } ∧
    get_current_user now3 (register now1 db email password).2
        (create_access_token now2 (some email) none none) =
      .ok (⟨db.next_user_id, email, get_password_hash password, true, false⟩ : User) := by
  have hreg : register now1 db email password =
      (.ok { id := db.next_user_id, email := email, is_verified := false
             verify_token := some (create_access_token now1 (some email)
               (some "email_verification") (some (24 * 3600))) },
       { db with
           users := db.users ++
             [(⟨db.next_user_id, email, get_password_hash password, true, false⟩ : User)]
           next_user_id := db.next_user_id + 1 }) := by
    simp [register, hfresh]
  have hlook : get_user_by_email (register now1 db email password).2 email =
      some (⟨db.next_user_id, email, get_password_hash password, true, false⟩ : User) := by
    rw [hreg]
    unfold get_user_by_email at hfresh ⊢
    simp [List.find?_append, hfresh]
  refine ⟨hreg, ?_, ?_⟩
  · unfold login
    rw [hlook]
    simp [verify_password, get_password_hash]
  · have hdec : decode_token now3 (create_access_token now2 (some email) none none) =
        some { sub := some email, typ := none,
               exp := now2 + ACCESS_TOKEN_EXPIRE_MINUTES * 60 } := by
      unfold decode_token create_access_token
      rw [if_pos ⟨rfl, by simpa using hexp⟩]
      rfl
    simp [get_current_user, hdec, hlook]

/-- Witness for C1: the full round trip on the empty store at concrete
instants 0, 10, 20. -/
theorem C1_witness :
    login 10 (register 0 db0 "a@x.com" "pw123").2 "a@x.com" "pw123" =
      .ok { access_token := create_access_token 10 (some "a@x.com") none none
            token_type := "bearer" } ∧
    get_current_user 20 (register 0 db0 "a@x.com" "pw123").2
        (create_access_token 10 (some "a@x.com") none none) =
      .ok (⟨1, "a@x.com", get_password_hash "pw123", true, false⟩ : User) :=
  ⟨(C1_register_login_resolve 0 10 20 db0 "a@x.com" "pw123" (by decide) (by decide)).2.1,
   (C1_register_login_resolve 0 10 20 db0 "a@x.com" "pw123" (by decide) (by decide)).2.2⟩

/-- A single successful verify_email call, spelled out: it reports success
and marks the matched user verified by primary key. -/
theorem verify_email_success (now : Int) (db : DB) (tok : Token) (email : String)
    (u : User)
    (hkey : tok.key = SECRET_KEY)
    (htyp : tok.claims.typ = some "email_verification")
    (hsub : tok.claims.sub = some email)
    (hne : ¬ email = "")
    (hexp : now ≤ tok.claims.exp)
    (hu : get_user_by_email db email = some u) :
    verify_email now db tok =
      (.ok "Email verified successfully",
       update_user db u.id (fun v => { v with is_verified := true })) := by
  have hdec : decode_token now tok = some tok.claims := by
    unfold decode_token
    rw [if_pos ⟨hkey, hexp⟩]
  simp [verify_email, hdec, htyp, hsub, hne, hu]

/-- C7: verify_email is idempotent -- with a still-valid verification token
whose subject matches an existing Identity, the first call succeeds and sets
the verified flag, and a second call with the same token still reports
success and leaves the flag true. -/
theorem C7_verify_email_idempotent (now1 now2 : Int) (db : DB) (tok : Token)
    (email : String) (u : User)
    (hkey : tok.key = SECRET_KEY)
    (htyp : tok.claims.typ = some "email_verification")
    (hsub : tok.claims.sub = some email)
    (hne : ¬ email = "")
    (hexp1 : now1 ≤ tok.claims.exp) (hexp2 : now2 ≤ tok.claims.exp)
    (hu : get_user_by_email db email = some u) :
    (verify_email now1 db tok).1 = .ok "Email verified successfully" ∧
    get_user_by_email (verify_email now1 db tok).2 email =
      some { u with is_verified := true } ∧
    (verify_email now2 (verify_email now1 db tok).2 tok).1 =
      .ok "Email verified successfully" ∧
    get_user_by_email (verify_email now2 (verify_email now1 db tok).2 tok).2 email =
      some { u with is_verified := true } := by
  have h1 := verify_email_success now1 db tok email u hkey htyp hsub hne hexp1 hu
  have hlook1 : get_user_by_email (verify_email now1 db tok).2 email =
      some { u with is_verified := true } := by
    simp only [h1]
    rw [get_user_by_email_update_user db u.id (fun v => { v with is_verified := true })
      (fun v => rfl) email, hu]
    simp
  have h2 := verify_email_success now2 (verify_email now1 db tok).2 tok email
    { u with is_verified := true } hkey htyp hsub hne hexp2 hlook1
  refine ⟨by rw [h1], hlook1, by rw [h2], ?_⟩
  simp only [h2]
  rw [get_user_by_email_update_user _ _ (fun v => { v with is_verified := true })
    (fun v => rfl) email, hlook1]
  simp

/-- Witness for C7 on the concrete store dbA with the concrete verification
token tokVerifA, called at instants 0 and 5. -/
theorem C7_witness :
    (verify_email 0 dbA tokVerifA).1 = .ok "Email verified successfully" ∧
    get_user_by_email (verify_email 0 dbA tokVerifA).2 "a@x.com" =
      some { userA with is_verified := true } ∧
    (verify_email 5 (verify_email 0 dbA tokVerifA).2 tokVerifA).1 =
      .ok "Email verified successfully" ∧
    get_user_by_email (verify_email 5 (verify_email 0 dbA tokVerifA).2 tokVerifA).2
        "a@x.com" = some { userA with is_verified := true } :=
  C7_verify_email_idempotent 0 5 dbA tokVerifA "a@x.com" userA rfl rfl rfl
    (by decide) (by decide) (by decide) (by decide)

/-- C9: the photo listing for identity A contains only rows owned by A
(never any of B's), and a delete by A of a photo id that only B owns fails
with 404 and leaves the store unchanged. -/
theorem C9_ownership_scoped (db : DB) (skip limit : Nat) (A B : User) (pid : Nat)
    (hAB : A.id ≠ B.id)
    (hown : ∀ p ∈ db.photos, p.id = pid → p.user_id = B.id) :
    (∀ p ∈ list_photos_rows db skip limit A, p.user_id = A.id ∧ p.user_id ≠ B.id) ∧
    delete_photo db pid A = (.error ⟨404, "Photo not found"⟩, db) := by
  constructor
  · intro p hp
    have hp1 : p ∈ db.photos.filter (fun q => q.user_id == A.id) :=
      List.mem_of_mem_drop (List.mem_of_mem_take hp)
    have hpA : p.user_id = A.id := by
      simpa using (List.mem_filter.mp hp1).2
    exact ⟨hpA, fun hB => hAB (hpA ▸ hB)⟩
  · have hnone : db.photos.find? (fun p => p.id == pid && p.user_id == A.id) = none := by
      rw [List.find?_eq_none]
      intro x hx hpx
      simp only [Bool.and_eq_true, beq_iff_eq] at hpx
      exact hAB (hpx.2 ▸ hown x hx hpx.1)
    unfold delete_photo
    rw [hnone]

/-- Witness for C9 on the concrete two-user store: userA's own photo is in
scope, and deleting userB's photo id 2 as userA is a 404 no-op. -/
theorem C9_witness :
    (photoA.user_id = userA.id ∧ photoA.user_id ≠ userB.id) ∧
    delete_photo dbPhotos 2 userA = (.error ⟨404, "Photo not found"⟩, dbPhotos) :=
  ⟨(C9_ownership_scoped dbPhotos 0 20 userA userB 2 (by decide) (by decide)).1 photoA
      (by decide),
   (C9_ownership_scoped dbPhotos 0 20 userA userB 2 (by decide) (by decide)).2⟩

/-- C10: get_current_user raises 401 exactly when the token fails to decode,
the claims lack a sub, or no user matches the sub; and whenever those three
lookups succeed it returns the user -- with no condition on the purpose tag
or on is_active, so verification/reset tokens and inactive accounts resolve. -/
theorem C10_resolution_conditions (now : Int) (db : DB) (tok : Token) :
    (get_current_user now db tok = .error credentials_exception ↔
      (decode_token now tok = none ∨
       (∃ c, decode_token now tok = some c ∧ c.sub = none) ∨
       (∃ c e, decode_token now tok = some c ∧ c.sub = some e ∧
          get_user_by_email db e = none))) ∧
    (∀ c e u, decode_token now tok = some c → c.sub = some e →
      get_user_by_email db e = some u → get_current_user now db tok = .ok u) := by
  constructor
  · unfold get_current_user
    cases hd : decode_token now tok with
    | none => simp
    | some c =>
      cases hs : c.sub with
      | none => simp [hs]
      | some e =>
        cases hu : get_user_by_email db e with
        | none => simp [hs, hu]
        | some u => simp [hs, hu]
  · intro c e u hd hs hu
    simp [get_current_user, hd, hs, hu]

/-- Witness for C10: an email_verification-purpose token for a deactivated
account still resolves to that account. -/
theorem C10_witness :
    get_current_user 0 dbInactive tokVerifInactive = .ok userInactive :=
  (C10_resolution_conditions 0 dbInactive tokVerifInactive).2 tokVerifInactive.claims
    "i@x.com" userInactive (by decide) rfl (by decide)

end Photobooth
